import Mathlib

/-!
Shallow embedding of the reconciliation core of the
cluster-api-provider-vsphere repository: the identifier codec and
machine utilities (package util), the task tracker and async completion
notifier (package govmomi), and the machine controller's reconcile
paths (package controllers).

External collaborators (the Kubernetes API client, the govmomi session,
the Go standard library's net package) are modelled as oracle
parameters: a provider query becomes a function argument whose result
the embedded code inspects exactly as the source does.
-/

/-! ## Data model (api/v1alpha2 projections, fields used by the core) -/

/-- Projection of infrav1.NetworkDeviceSpec: only the fields the
reconcile core reads. -/
structure NetworkDeviceSpec where
  networkName : String := ""
  macAddr : String := ""
  deriving Repr, DecidableEq

/-- Projection of infrav1.NetworkSpec: the device list and the
preferred API-server CIDR string. -/
structure NetworkSpec where
  devices : List NetworkDeviceSpec := []
  preferredAPIServerCIDR : String := ""
  deriving Repr, DecidableEq

/-- Projection of infrav1.NetworkStatus: one observed network interface
of the instance. -/
structure NetworkStatus where
  connected : Bool := false
  ipAddrs : List String := []
  macAddr : String := ""
  networkName : String := ""
  deriving Repr, DecidableEq

/-- corev1.NodeAddress: an address with a type tag. -/
structure NodeAddress where
  type : String := ""
  address : String := ""
  deriving Repr, DecidableEq

/-- corev1.NodeInternalIP. -/
def NodeInternalIP : String := "InternalIP"

/-- Projection of infrav1.VSphereMachineSpec: the provider id pointer
(Option models the Go string pointer) and the network spec. -/
structure VSphereMachineSpec where
  providerID : Option String := none
  network : NetworkSpec := {}
  deriving Repr, DecidableEq

/-- Projection of infrav1.VSphereMachineStatus: readiness, addresses,
observed network, in-flight task reference and terminal error fields. -/
structure VSphereMachineStatus where
  ready : Bool := false
  addresses : List NodeAddress := []
  network : List NetworkStatus := []
  taskRef : String := ""
  errorReason : Option String := none
  errorMessage : Option String := none
  deriving Repr, DecidableEq

/-- The VSphereMachine resource: metadata finalizers, spec and status. -/
structure VSphereMachine where
  finalizers : List String := []
  spec : VSphereMachineSpec := {}
  status : VSphereMachineStatus := {}
  deriving Repr, DecidableEq

/-- infrav1.VirtualMachine: the provider instance view returned by the
VM service (state, BIOS UUID and observed network interfaces). -/
structure VirtualMachine where
  name : String := ""
  biosUUID : String := ""
  state : String := ""
  network : List NetworkStatus := []
  deriving Repr, DecidableEq

/-- infrav1.VirtualMachineStateNotFound. -/
def VirtualMachineStateNotFound : String := "notfound"

/-- infrav1.VirtualMachineStateReady. -/
def VirtualMachineStateReady : String := "ready"

/-- infrav1.MachineFinalizer, the lifecycle finalizer owned by the
machine controller. -/
def MachineFinalizer : String := "vspheremachine.infrastructure.cluster.x-k8s.io"

/-- Error values produced by the embedded core.  Each constructor names
one error-construction site of the source (errors.Errorf / errors.New);
`wrapped` models errors.Wrapf around a cause. -/
inductive Err where
  | wrapped (op : String) (cause : Err)
  | invalidNetworkCount (exp act : Nat)
  | invalidBiosUUID (uuid : String)
  | unknownTaskState (state : String)
  | cidrParse
  | noMachineIPAddr
  | providerCall (msg : String)
  deriving Repr, DecidableEq

/-! ## Identifier codec (pkg/util, ConvertProviderIDToUUID /
ConvertUUIDToProviderID)

The Go code matches against the anchored regular expressions
  UUIDPattern       = `(?i)^[a-f\d]{8}-[a-f\d]{4}-[a-f\d]{4}-[a-f\d]{4}-[a-f\d]{12}$`
  ProviderIDPattern = `(?i)^vsphere://` + that UUID group + `$`
The embedding implements the same anchored shapes directly on the
character list of the string; the `(?i)` flag makes both the hex
letters and the scheme literal case-insensitive. -/

/-- One character of the class `[a-f\d]` under the `(?i)` flag. -/
def isHexCharCI (c : Char) : Bool :=
  (('a' ≤ c) && (c ≤ 'f')) || (('A' ≤ c) && (c ≤ 'F')) || (('0' ≤ c) && (c ≤ '9'))

/-- Consume exactly `n` characters of the class `[a-f\d]` (`(?i)`),
returning the remaining characters; `none` when the run is absent. -/
def hexRun : Nat → List Char → Option (List Char)
  | 0, cs => some cs
  | _ + 1, [] => none
  | n + 1, c :: cs => if isHexCharCI c then hexRun n cs else none

/-- Consume a literal dash. -/
def expectDash : List Char → Option (List Char)
  | '-' :: cs => some cs
  | _ => none

/-- True when the whole character list matches the anchored
UUIDPattern: 8-4-4-4-12 hex groups separated by dashes. -/
def uuidChars (cs : List Char) : Bool :=
  (do
    let cs ← hexRun 8 cs
    let cs ← expectDash cs
    let cs ← hexRun 4 cs
    let cs ← expectDash cs
    let cs ← hexRun 4 cs
    let cs ← expectDash cs
    let cs ← hexRun 4 cs
    let cs ← expectDash cs
    let cs ← hexRun 12 cs
    match cs with
    | [] => some ()
    | _ :: _ => none).isSome

/-- util.ProviderIDPrefix: the scheme string prefixed to a BIOS UUID to
build a provider ID. -/
def ProviderIDScheme : String := "vsphere://"

/-- util.ConvertUUIDToProviderID: an empty or invalid UUID yields the
empty string, otherwise the scheme is prepended. -/
def ConvertUUIDToProviderID (uuid : String) : String :=
  if uuid = "" then ""
  else if uuidChars uuid.data then ProviderIDScheme ++ uuid
  else ""

/-- Case-insensitive literal match of a pattern prefix (the scheme under
`(?i)`), returning the characters after the prefix. -/
def schemeMatchCI : List Char → List Char → Option (List Char)
  | [], cs => some cs
  | _ :: _, [] => none
  | p :: ps, c :: cs => if c.toLower = p.toLower then schemeMatchCI ps cs else none

/-- The anchored ProviderIDPattern as a Boolean shape check: the scheme
(case-insensitively) followed by a UUID shape, nothing after. -/
def providerIDShape (s : String) : Bool :=
  match schemeMatchCI ProviderIDScheme.data s.data with
  | none => false
  | some rest => uuidChars rest

/-- util.ConvertProviderIDToUUID: nil, empty, or non-matching input
yields the empty string; otherwise the captured UUID submatch (the
characters after the scheme, case preserved) is returned. -/
def ConvertProviderIDToUUID (providerID : Option String) : String :=
  match providerID with
  | none => ""
  | some s =>
    if s = "" then ""
    else
      match schemeMatchCI ProviderIDScheme.data s.data with
      | none => ""
      | some rest => if uuidChars rest then String.mk rest else ""

/-! ## Preferred IP address (pkg/util, GetMachinePreferredIPAddress)

net.ParseCIDR and (*net.IPNet).Contains are Go standard-library calls,
external to the repository; they are oracle parameters here.  `IPNet`
is an opaque token for a parsed network; `parseCIDR` returns `none`
exactly when net.ParseCIDR errors; `cidrHas c a` stands for
`c.Contains(net.ParseIP(a))` (net.ParseIP absorbed into the oracle,
with a nil IP contained in nothing, as in Go). -/

/-- Opaque stand-in for a parsed *net.IPNet value. -/
structure IPNet where
  repr : String := ""
  deriving Repr, DecidableEq

/-- The loop of GetMachinePreferredIPAddress: walk Status.Addresses in
order; skip non-internal addresses; with no CIDR return the first
internal address, with a CIDR return the first internal address the
CIDR contains; exhaustion yields ErrNoMachineIPAddr. -/
def findPreferredIP (cidr : Option IPNet) (cidrHas : IPNet → String → Bool) :
    List NodeAddress → Except Err String
  | [] => .error .noMachineIPAddr
  | a :: rest =>
    if a.type ≠ NodeInternalIP then findPreferredIP cidr cidrHas rest
    else
      match cidr with
      | none => .ok a.address
      | some c =>
        if cidrHas c a.address then .ok a.address
        else findPreferredIP cidr cidrHas rest

/-- util.GetMachinePreferredIPAddress: parse the preferred API-server
CIDR when non-empty (a parse failure is an error), then scan
Status.Addresses with `findPreferredIP`. -/
def GetMachinePreferredIPAddress (parseCIDR : String → Option IPNet)
    (cidrHas : IPNet → String → Bool) (machine : VSphereMachine) :
    Except Err String :=
  if machine.spec.network.preferredAPIServerCIDR = "" then
    findPreferredIP none cidrHas machine.status.addresses
  else
    match parseCIDR machine.spec.network.preferredAPIServerCIDR with
    | none => .error .cidrParse
    | some c => findPreferredIP (some c) cidrHas machine.status.addresses

/-! ## Task tracker (pkg/services/govmomi, getTask /
reconcileInFlightTask)

The session query ctx.Session.RetrieveOne is external; `retrieve` is
the oracle: `none` when the query errors or the task does not exist,
`some t` when the task object is retrieved. -/

/-- Projection of govmomi types.TaskInfo. -/
structure TaskInfo where
  state : String := ""
  descriptionId : String := ""
  deriving Repr, DecidableEq

/-- Projection of govmomi mo.Task. -/
structure MoTask where
  info : TaskInfo := {}
  deriving Repr, DecidableEq

/-- govmomi types.TaskInfoStateQueued. -/
def TaskInfoStateQueued : String := "queued"

/-- govmomi types.TaskInfoStateRunning. -/
def TaskInfoStateRunning : String := "running"

/-- govmomi types.TaskInfoStateSuccess. -/
def TaskInfoStateSuccess : String := "success"

/-- govmomi types.TaskInfoStateError. -/
def TaskInfoStateError : String := "error"

/-- getTask: no stored task reference means no task; otherwise query
the session, treating a query error as no task. -/
def getTask (retrieve : String → Option MoTask) (machine : VSphereMachine) :
    Option MoTask :=
  if machine.status.taskRef = "" then none
  else retrieve machine.status.taskRef

/-- reconcileInFlightTask: returns the mutated machine, the
still-running flag and the optional error, exactly following the Go
switch on the task state. -/
def reconcileInFlightTask (retrieve : String → Option MoTask)
    (machine : VSphereMachine) : VSphereMachine × Bool × Option Err :=
  match getTask retrieve machine with
  | none =>
    ({ machine with status := { machine.status with taskRef := "" } }, false, none)
  | some task =>
    if task.info.state = TaskInfoStateQueued then (machine, true, none)
    else if task.info.state = TaskInfoStateRunning then (machine, true, none)
    else if task.info.state = TaskInfoStateSuccess then
      ({ machine with status := { machine.status with taskRef := "" } }, false, none)
    else if task.info.state = TaskInfoStateError then
      ({ machine with status := { machine.status with taskRef := "" } }, false, none)
    else (machine, false, some (.unknownTaskState task.info.state))

/-! ## Async completion notifier (pkg/services/govmomi,
reconcileObjectOnFuncCompletion)

The spawned goroutine's body is a pure function of waitFn's outcome:
it either logs the error and returns without emitting, or sends one
GenericEvent carrying the (deep-copied) object into the per-kind event
channel.  The returned list is the sequence of events the unit sends. -/

/-- controller-runtime event.GenericEvent carrying the resource. -/
structure GenericEvent where
  obj : VSphereMachine
  deriving Repr, DecidableEq

/-- The goroutine body of reconcileObjectOnFuncCompletion, as a
function from waitFn's outcome to the events emitted into the event
channel: an error emits nothing (logged only); success emits one
GenericEvent for the object. -/
def backgroundWaitUnit (obj : VSphereMachine)
    (waitResult : Except Err (List (String × String))) : List GenericEvent :=
  match waitResult with
  | .error _ => []
  | .ok _ => [{ obj := obj }]

/-! ## Machine controller (package controllers) -/

/-- cluster-api util.Contains: true when the list holds the string. -/
def Contains (list : List String) (s : String) : Bool :=
  list.contains s

/-- cluster-api util.Filter (renamed: `Filter` is taken by Mathlib):
the items of `list` not among `strings`. -/
def FilterStrings (list : List String) (strings : List String) : List String :=
  list.filter (fun item => !(Contains strings item))

/-- The ipAddrs accumulation of reconcileNetwork: every IP of every
entry of Status.Network, tagged NodeInternalIP, in order. -/
def collectIPAddrs (network : List NetworkStatus) : List NodeAddress :=
  network.flatMap
    (fun netStatus => netStatus.ipAddrs.map
      (fun ip => { type := NodeInternalIP, address := ip }))

/-- machineReconciler.reconcileNetwork: device-count mismatch is an
error; otherwise Status.Network is set from the view, and either the
loop waits on IP addresses (false, no error) or Status.Addresses is
assigned and the step succeeds. -/
def reconcileNetwork (machine : VSphereMachine) (vm : VirtualMachine) :
    VSphereMachine × Bool × Option Err :=
  let expNetCount := machine.spec.network.devices.length
  let actNetCount := vm.network.length
  if expNetCount ≠ actNetCount then
    (machine, false, some (.invalidNetworkCount expNetCount actNetCount))
  else
    let machine := { machine with status := { machine.status with network := vm.network } }
    let ipAddrs := collectIPAddrs machine.status.network
    if ipAddrs.length = 0 then
      (machine, false, none)
    else
      ({ machine with status := { machine.status with addresses := ipAddrs } }, true, none)

/-- machineReconciler.reconcileProviderID: an empty conversion of the
BIOS UUID is an error; when Spec.ProviderID is nil or differs, it is
set to the converted provider id. -/
def reconcileProviderID (machine : VSphereMachine) (vm : VirtualMachine) :
    VSphereMachine × Option Err :=
  let providerID := ConvertUUIDToProviderID vm.biosUUID
  if providerID = "" then
    (machine, some (.invalidBiosUUID vm.biosUUID))
  else
    match machine.spec.providerID with
    | none =>
      ({ machine with spec := { machine.spec with providerID := some providerID } }, none)
    | some p =>
      if p ≠ providerID then
        ({ machine with spec := { machine.spec with providerID := some providerID } }, none)
      else (machine, none)

/-- machineReconciler.reconcileNormal.  External inputs become
parameters: `infraReady` is Cluster.Status.InfrastructureReady,
`bootstrapData` is Machine.Spec.Bootstrap.Data, and `vmResult` is what
vmService.ReconcileVM returns for this pass. -/
def reconcileNormal (machine : VSphereMachine) (infraReady : Bool)
    (bootstrapData : Option String) (vmResult : Except Err VirtualMachine) :
    VSphereMachine × Option Err :=
  if machine.status.errorReason.isSome || machine.status.errorMessage.isSome then
    (machine, none)
  else
    let machine :=
      if !(Contains machine.finalizers MachineFinalizer) then
        { machine with finalizers := machine.finalizers ++ [MachineFinalizer] }
      else machine
    if !infraReady then (machine, none)
    else if bootstrapData.isNone then (machine, none)
    else
      match vmResult with
      | .error e => (machine, some (.wrapped "failed to reconcile VM" e))
      | .ok vm =>
        if vm.state ≠ VirtualMachineStateReady then (machine, none)
        else
          match reconcileNetwork machine vm with
          | (machine, false, some e) => (machine, some e)
          | (machine, false, none) => (machine, none)
          | (machine, true, _) =>
            match reconcileProviderID machine vm with
            | (machine, some e) => (machine, some e)
            | (machine, none) =>
              ({ machine with status := { machine.status with ready := true } }, none)

/-- machineReconciler.reconcileDelete.  `vmResult` is what
vmService.DestroyVM returns for this pass.  When the view's state is
not `notfound` the pass waits; once `notfound`, the lifecycle
finalizer is filtered out of the finalizer list. -/
def reconcileDelete (machine : VSphereMachine)
    (vmResult : Except Err VirtualMachine) : VSphereMachine × Option Err :=
  match vmResult with
  | .error e => (machine, some (.wrapped "failed to destroy VM" e))
  | .ok vm =>
    if vm.state ≠ VirtualMachineStateNotFound then (machine, none)
    else
      ({ machine with finalizers := FilterStrings machine.finalizers [MachineFinalizer] }, none)

/-- The exit record of one Reconcile invocation after the machine
context is built: the final local machine, the arguments of the patch
calls issued on exit, and the reported error. -/
structure ReconcileExit where
  machine : VSphereMachine
  patched : List VSphereMachine
  err : Option Err
  deriving Repr, DecidableEq

/-- machineReconciler.Reconcile, from the point the machine context is
built: dispatch on the deletion timestamp to reconcileDelete or
reconcileNormal, then (deferred, on every exit path) patch the
resource back; a patch failure becomes the reported error only when
the body produced none.  `patchResult` is the oracle for
machineContext.Patch(). -/
def reconcileAfterContext (machine : VSphereMachine) (deleting : Bool)
    (infraReady : Bool) (bootstrapData : Option String)
    (vmResult : Except Err VirtualMachine)
    (patchResult : VSphereMachine → Option Err) : ReconcileExit :=
  let body :=
    if deleting then reconcileDelete machine vmResult
    else reconcileNormal machine infraReady bootstrapData vmResult
  let patchErr := patchResult body.1
  { machine := body.1
    patched := [body.1]
    err :=
      match body.2 with
      | some e => some e
      | none => patchErr }

/-! ## Concrete inputs used by witnesses and counterexamples -/

/-- A BIOS UUID matching the UUID shape. -/
def uuidA : String := "4205e009-8f43-8f5f-a068-1d213c26a518"

/-- A machine with no provider id assigned. -/
def mC1 : VSphereMachine := {}

/-- A ready instance view carrying `uuidA` as its BIOS UUID. -/
def vmC1 : VirtualMachine := { biosUUID := uuidA, state := VirtualMachineStateReady }

/-- A machine whose Status holds a task reference. -/
def mTask : VSphereMachine := { status := { taskRef := "task-42" } }

/-- A task the provider reports as queued. -/
def taskQueued : MoTask := { info := { state := "queued" } }

/-- A task the provider reports as succeeded. -/
def taskSuccess : MoTask := { info := { state := "success" } }

/-- A task in a state outside the four known ones. -/
def taskWeird : MoTask := { info := { state := "warped" } }

/-- The qualification a Status address must meet for the loop of
GetMachinePreferredIPAddress to return it: internal type, and inside
the CIDR when one is given. -/
def qualifiesAddr (cidrHas : IPNet → String → Bool) (cidr : Option IPNet)
    (a : NodeAddress) : Bool :=
  (a.type == NodeInternalIP) &&
    (match cidr with
     | none => true
     | some c => cidrHas c a.address)

/-- An instance view in state notfound. -/
def vmNotFound : VirtualMachine := { state := VirtualMachineStateNotFound }

/-- An instance view in a pending state. -/
def vmPending : VirtualMachine := { state := "pending" }

/-- A machine carrying the lifecycle finalizer next to another one. -/
def mFin : VSphereMachine := { finalizers := ["kept", MachineFinalizer] }

/-- A machine with two configured network devices. -/
def mNet2 : VSphereMachine :=
  { finalizers := [MachineFinalizer],
    spec := { network := { devices := [{}, {}] } } }

/-- A ready view reporting one network interface with one address. -/
def vmOneNet : VirtualMachine :=
  { state := VirtualMachineStateReady, network := [{ ipAddrs := ["10.0.0.9"] }] }

/-- A machine with one configured network device. -/
def mNet1 : VSphereMachine :=
  { finalizers := [MachineFinalizer],
    spec := { network := { devices := [{}] } } }

/-- A ready view reporting one interface with no addresses yet. -/
def vmNoIP : VirtualMachine :=
  { state := VirtualMachineStateReady, network := [{ ipAddrs := [] }] }

/-- A patch oracle that reports a conflict on every call. -/
def patchConflict : VSphereMachine → Option Err :=
  fun _ => some (.providerCall "patch conflict")

/-- A patch oracle that always succeeds. -/
def patchClean : VSphereMachine → Option Err := fun _ => none

/-- A CIDR oracle that fails every parse. -/
def pcNone : String → Option IPNet := fun _ => none

/-- A containment oracle holding every address. -/
def hasAll : IPNet → String → Bool := fun _ _ => true

/-- A machine with a non-empty, unparsable preferred API-server CIDR. -/
def mCidrBad : VSphereMachine :=
  { spec := { network := { preferredAPIServerCIDR := "bad" } } }

/-- A machine whose first internal address sits behind an external one. -/
def mAddrs : VSphereMachine :=
  { status := { addresses :=
      [{ type := "ExternalIP", address := "1.2.3.4" },
       { type := NodeInternalIP, address := "10.0.0.5" }] } }

/-! ## Helper lemmas -/

/-- The character list of the provider-id scheme literal. -/
theorem providerIDScheme_data :
    ProviderIDScheme.data = ['v', 's', 'p', 'h', 'e', 'r', 'e', ':', '/', '/'] := rfl

/-- A string whose characters match the UUID shape is nonempty. -/
theorem ne_empty_of_uuidChars {u : String} (h : uuidChars u.data = true) : u ≠ "" := by
  intro hu
  subst hu
  exact absurd h (by decide)

/-- Matching the scheme against itself followed by any tail succeeds and
returns the tail. -/
theorem schemeMatchCI_self_append (rest : List Char) :
    schemeMatchCI ProviderIDScheme.data (ProviderIDScheme.data ++ rest) = some rest := rfl

/-- Prepending the scheme makes the string nonempty. -/
theorem scheme_append_ne_empty (u : String) : ProviderIDScheme ++ u ≠ "" := by
  intro hEq
  have h2 := congrArg String.data hEq
  rw [String.data_append, providerIDScheme_data] at h2
  exact absurd h2 (by simp)

/-! ## Claim theorems -/

/-- Claim C3: for every string u matching the UUID shape
(case-insensitively), decoding the encoded provider id round-trips to
u; a string not matching the UUID shape encodes to the empty string;
and a string not matching the scheme-plus-UUID shape decodes to the
empty string. -/
theorem C3_codec_roundtrip (u s : String) :
    (uuidChars u.data = true →
      ConvertProviderIDToUUID (some (ConvertUUIDToProviderID u)) = u)
    ∧ (uuidChars s.data = false → ConvertUUIDToProviderID s = "")
    ∧ (providerIDShape s = false → ConvertProviderIDToUUID (some s) = "") := by
  refine ⟨?_, ?_, ?_⟩
  · intro h
    have hne := ne_empty_of_uuidChars h
    have henc : ConvertUUIDToProviderID u = ProviderIDScheme ++ u := by
      rw [ConvertUUIDToProviderID, if_neg hne, if_pos h]
    rw [henc]
    show (if ProviderIDScheme ++ u = "" then ""
      else match schemeMatchCI ProviderIDScheme.data (ProviderIDScheme ++ u).data with
        | none => ""
        | some rest => if uuidChars rest then String.mk rest else "") = u
    rw [if_neg (scheme_append_ne_empty u), String.data_append,
      schemeMatchCI_self_append]
    show (if uuidChars u.data = true then String.mk u.data else "") = u
    rw [if_pos h]
  · intro h
    by_cases hs : s = ""
    · subst hs; rfl
    · rw [ConvertUUIDToProviderID, if_neg hs]
      simp [h]
  · intro h
    by_cases hs : s = ""
    · subst hs; rfl
    · cases hm : schemeMatchCI ProviderIDScheme.data s.data with
      | none =>
        show (if s = "" then ""
          else match schemeMatchCI ProviderIDScheme.data s.data with
            | none => ""
            | some rest => if uuidChars rest then String.mk rest else "") = ""
        rw [if_neg hs, hm]
      | some rest =>
        have huu : uuidChars rest = false := by
          rw [providerIDShape, hm] at h
          exact h
        show (if s = "" then ""
          else match schemeMatchCI ProviderIDScheme.data s.data with
            | none => ""
            | some rest => if uuidChars rest then String.mk rest else "") = ""
        rw [if_neg hs, hm]
        simp [huu]

/-- Witness for C3 at the concrete UUID `uuidA` and the malformed
string "zzz". -/
theorem C3_codec_roundtrip_witness :
    uuidChars uuidA.data = true ∧
    ConvertProviderIDToUUID (some (ConvertUUIDToProviderID uuidA)) = uuidA ∧
    ConvertUUIDToProviderID "zzz" = "" ∧
    ConvertProviderIDToUUID (some "zzz") = "" :=
  ⟨by decide, (C3_codec_roundtrip uuidA "zzz").1 (by decide),
   (C3_codec_roundtrip uuidA "zzz").2.1 (by decide),
   (C3_codec_roundtrip uuidA "zzz").2.2 (by decide)⟩

/-- Claim C2: when Status holds a task reference and the provider
reports the task as queued or running, reconcileInFlightTask returns
still-running with no error and leaves the machine (hence the task
reference) unchanged; when the provider reports success or error, or
the task cannot be found (a query error included), the task reference
becomes empty and reconcileInFlightTask returns not-running with no
error. -/
theorem C2_inflight_task (retrieve : String → Option MoTask)
    (m : VSphereMachine) :
    (∀ t, m.status.taskRef ≠ "" → retrieve m.status.taskRef = some t →
      (t.info.state = TaskInfoStateQueued ∨ t.info.state = TaskInfoStateRunning) →
      reconcileInFlightTask retrieve m = (m, true, none))
    ∧ (∀ t, m.status.taskRef ≠ "" → retrieve m.status.taskRef = some t →
      (t.info.state = TaskInfoStateSuccess ∨ t.info.state = TaskInfoStateError) →
      reconcileInFlightTask retrieve m =
        ({ m with status := { m.status with taskRef := "" } }, false, none))
    ∧ (m.status.taskRef ≠ "" → retrieve m.status.taskRef = none →
      reconcileInFlightTask retrieve m =
        ({ m with status := { m.status with taskRef := "" } }, false, none)) := by
  refine ⟨?_, ?_, ?_⟩
  · intro t href hret hstate
    rw [reconcileInFlightTask, getTask, if_neg href, hret]
    rcases hstate with h | h
    · simp [h, TaskInfoStateQueued]
    · simp [h, TaskInfoStateQueued, TaskInfoStateRunning]
  · intro t href hret hstate
    rw [reconcileInFlightTask, getTask, if_neg href, hret]
    rcases hstate with h | h
    · simp [h, TaskInfoStateQueued, TaskInfoStateRunning, TaskInfoStateSuccess]
    · simp [h, TaskInfoStateQueued, TaskInfoStateRunning, TaskInfoStateSuccess,
        TaskInfoStateError]
  · intro href hret
    rw [reconcileInFlightTask, getTask, if_neg href, hret]

/-- Witness for C2: a queued task is left alone, a succeeded task and a
missing task clear the reference. -/
theorem C2_inflight_task_witness :
    reconcileInFlightTask (fun _ => some taskQueued) mTask = (mTask, true, none) ∧
    reconcileInFlightTask (fun _ => some taskSuccess) mTask =
      ({ mTask with status := { mTask.status with taskRef := "" } }, false, none) ∧
    reconcileInFlightTask (fun _ => none) mTask =
      ({ mTask with status := { mTask.status with taskRef := "" } }, false, none) :=
  ⟨(C2_inflight_task (fun _ => some taskQueued) mTask).1 taskQueued
      (by decide) rfl (Or.inl rfl),
   (C2_inflight_task (fun _ => some taskSuccess) mTask).2.1 taskSuccess
      (by decide) rfl (Or.inl rfl),
   (C2_inflight_task (fun _ => none) mTask).2.2 (by decide) rfl⟩

/-- Claim C9: when Status holds a task reference and the task is found
in a state other than queued, running, success or error,
reconcileInFlightTask returns an unknown-task-state error and leaves
the machine (hence Status.TaskRef) unchanged. -/
theorem C9_unknown_task_state (retrieve : String → Option MoTask)
    (m : VSphereMachine) (t : MoTask)
    (href : m.status.taskRef ≠ "")
    (hret : retrieve m.status.taskRef = some t)
    (h1 : t.info.state ≠ TaskInfoStateQueued)
    (h2 : t.info.state ≠ TaskInfoStateRunning)
    (h3 : t.info.state ≠ TaskInfoStateSuccess)
    (h4 : t.info.state ≠ TaskInfoStateError) :
    reconcileInFlightTask retrieve m =
      (m, false, some (.unknownTaskState t.info.state)) := by
  have hg : getTask retrieve m = some t := by rw [getTask, if_neg href, hret]
  simp only [reconcileInFlightTask, hg]
  rw [if_neg h1, if_neg h2, if_neg h3, if_neg h4]

/-- Witness for C9 at a task in state "warped". -/
theorem C9_unknown_task_state_witness :
    reconcileInFlightTask (fun _ => some taskWeird) mTask =
      (mTask, false, some (.unknownTaskState "warped")) :=
  C9_unknown_task_state (fun _ => some taskWeird) mTask taskWeird
    (by decide) rfl (by decide) (by decide) (by decide) (by decide)

/-- findPreferredIP returns the first qualifying address of the list in
order, and the no-address error when none qualifies. -/
theorem findPreferredIP_eq_find (cidr : Option IPNet)
    (cidrHas : IPNet → String → Bool) (addrs : List NodeAddress) :
    findPreferredIP cidr cidrHas addrs =
      match addrs.find? (qualifiesAddr cidrHas cidr) with
      | some a => .ok a.address
      | none => .error .noMachineIPAddr := by
  induction addrs with
  | nil => rfl
  | cons a rest ih =>
    simp only [findPreferredIP, List.find?_cons]
    by_cases ht : a.type = NodeInternalIP
    · simp only [ht, ne_eq, not_true_eq_false, if_false]
      cases cidr with
      | none => simp [qualifiesAddr, ht]
      | some c =>
        by_cases hc : cidrHas c a.address = true
        · simp [qualifiesAddr, ht, hc]
        · simp only [Bool.not_eq_true] at hc
          simp [qualifiesAddr, ht, hc, ih]
    · have hq : qualifiesAddr cidrHas cidr a = false := by
        simp [qualifiesAddr, ht]
      simp [ht, hq, ih]

/-- An ok result of findPreferredIP names an internal address of the
list. -/
theorem findPreferredIP_ok_mem (cidr : Option IPNet)
    (cidrHas : IPNet → String → Bool) (addrs : List NodeAddress)
    (addr : String)
    (h : findPreferredIP cidr cidrHas addrs = .ok addr) :
    ∃ a ∈ addrs, a.type = NodeInternalIP ∧ a.address = addr := by
  rw [findPreferredIP_eq_find] at h
  cases hf : addrs.find? (qualifiesAddr cidrHas cidr) with
  | none => rw [hf] at h; exact absurd h (by simp)
  | some a =>
    rw [hf] at h
    have ha := List.find?_some hf
    have hmem := List.mem_of_find?_eq_some hf
    have haddr : a.address = addr := by
      simpa using h
    refine ⟨a, hmem, ?_, haddr⟩
    simp only [qualifiesAddr, Bool.and_eq_true, beq_iff_eq] at ha
    exact ha.1

/-- Claim C10: GetMachinePreferredIPAddress returns the address of the
first entry of Status.Addresses, in list order, whose type is
NodeInternalIP and which lies inside the preferred API-server CIDR
when one is configured; a non-empty CIDR that fails to parse is a
parse error; when no entry qualifies the result is ErrNoMachineIPAddr;
and an address whose type is not NodeInternalIP is never returned. -/
theorem C10_preferred_ip (parseCIDR : String → Option IPNet)
    (cidrHas : IPNet → String → Bool) (m : VSphereMachine) :
    (m.spec.network.preferredAPIServerCIDR ≠ "" →
      parseCIDR m.spec.network.preferredAPIServerCIDR = none →
      GetMachinePreferredIPAddress parseCIDR cidrHas m = .error .cidrParse)
    ∧ (∀ cidr : Option IPNet,
        ((m.spec.network.preferredAPIServerCIDR = "" ∧ cidr = none) ∨
         (m.spec.network.preferredAPIServerCIDR ≠ "" ∧
           parseCIDR m.spec.network.preferredAPIServerCIDR = cidr ∧ cidr ≠ none)) →
        GetMachinePreferredIPAddress parseCIDR cidrHas m =
          match m.status.addresses.find? (qualifiesAddr cidrHas cidr) with
          | some a => .ok a.address
          | none => .error .noMachineIPAddr)
    ∧ (∀ addr, GetMachinePreferredIPAddress parseCIDR cidrHas m = .ok addr →
        ∃ a ∈ m.status.addresses, a.type = NodeInternalIP ∧ a.address = addr) := by
  refine ⟨?_, ?_, ?_⟩
  · intro h1 h2
    rw [GetMachinePreferredIPAddress, if_neg h1, h2]
  · intro cidr hc
    rcases hc with ⟨hpc, hnone⟩ | ⟨hpc, hparse, hsome⟩
    · subst hnone
      rw [GetMachinePreferredIPAddress, if_pos hpc, findPreferredIP_eq_find]
    · cases cidr with
      | none => exact absurd rfl hsome
      | some c =>
        rw [GetMachinePreferredIPAddress, if_neg hpc, hparse]
        simp only []
        rw [findPreferredIP_eq_find]
  · intro addr h
    rw [GetMachinePreferredIPAddress] at h
    by_cases hpc : m.spec.network.preferredAPIServerCIDR = ""
    · rw [if_pos hpc] at h
      exact findPreferredIP_ok_mem none cidrHas m.status.addresses addr h
    · rw [if_neg hpc] at h
      cases hp : parseCIDR m.spec.network.preferredAPIServerCIDR with
      | none => rw [hp] at h; exact absurd h (by simp)
      | some c =>
        rw [hp] at h
        exact findPreferredIP_ok_mem (some c) cidrHas m.status.addresses addr h

/-- Witness for C10: a bad CIDR yields a parse error; with no CIDR the
second (first internal) address is returned, and it is internal. -/
theorem C10_preferred_ip_witness :
    GetMachinePreferredIPAddress pcNone hasAll mCidrBad = .error .cidrParse ∧
    GetMachinePreferredIPAddress pcNone hasAll mAddrs = .ok "10.0.0.5" ∧
    (∃ a ∈ mAddrs.status.addresses,
      a.type = NodeInternalIP ∧ a.address = "10.0.0.5") :=
  ⟨(C10_preferred_ip pcNone hasAll mCidrBad).1 (by decide) rfl,
   ((C10_preferred_ip pcNone hasAll mAddrs).2.1 none (Or.inl ⟨rfl, rfl⟩)).trans
     (by rfl),
   (C10_preferred_ip pcNone hasAll mAddrs).2.2 "10.0.0.5" (by rfl)⟩

/-- When the view reports no IP address at all, the reconcileNetwork
accumulation is empty. -/
theorem collectIPAddrs_eq_nil (network : List NetworkStatus)
    (h : network.flatMap NetworkStatus.ipAddrs = []) :
    collectIPAddrs network = [] := by
  induction network with
  | nil => rfl
  | cons n rest ih =>
    simp only [List.flatMap_cons, List.append_eq_nil] at h
    simp only [collectIPAddrs, List.flatMap_cons] at ih ⊢
    simp [h.1, ih h.2]

/-- Claim C5: a machine whose Spec lists a number of network devices
different from the number of interfaces in the instance view makes the
network step return the invalid-network-count configuration error, and
the normal-path reconcile surfaces that error without setting
Status.Ready. -/
theorem C5_network_count_mismatch (m : VSphereMachine) (d : String)
    (vm : VirtualMachine)
    (h1 : m.status.errorReason = none)
    (h2 : m.status.errorMessage = none)
    (h6 : vm.state = VirtualMachineStateReady)
    (h7 : m.spec.network.devices.length ≠ vm.network.length) :
    reconcileNetwork m vm =
      (m, false,
        some (.invalidNetworkCount m.spec.network.devices.length vm.network.length))
    ∧ (reconcileNormal m true (some d) (.ok vm)).2 =
        some (.invalidNetworkCount m.spec.network.devices.length vm.network.length)
    ∧ (reconcileNormal m true (some d) (.ok vm)).1.status.ready = m.status.ready := by
  have hnet : ∀ m1 : VSphereMachine, m1.spec = m.spec →
      reconcileNetwork m1 vm =
        (m1, false,
          some (.invalidNetworkCount m.spec.network.devices.length vm.network.length)) := by
    intro m1 hspec
    simp [reconcileNetwork, hspec, h7]
  refine ⟨hnet m rfl, ?_, ?_⟩
  all_goals
    by_cases hf : Contains m.finalizers MachineFinalizer <;>
      simp [reconcileNormal, h1, h2, h6, hf, hnet m rfl,
        hnet { m with finalizers := m.finalizers ++ [MachineFinalizer] } rfl]

/-- Witness for C5 at two configured devices against one reported
interface. -/
theorem C5_network_count_mismatch_witness :
    reconcileNetwork mNet2 vmOneNet =
      (mNet2, false, some (.invalidNetworkCount 2 1)) ∧
    (reconcileNormal mNet2 true (some "bootstrap") (.ok vmOneNet)).2 =
      some (.invalidNetworkCount 2 1) ∧
    (reconcileNormal mNet2 true (some "bootstrap") (.ok vmOneNet)).1.status.ready
      = false :=
  C5_network_count_mismatch mNet2 "bootstrap" vmOneNet rfl rfl rfl (by decide)

/-- Claim C6: on the deletion path, when the destroy call reports the
view as notfound the lifecycle finalizer is removed from the finalizer
list (with no error); for any other reported state the machine is
unchanged and no error is returned. -/
theorem C6_delete_finalizer (m : VSphereMachine) (vm : VirtualMachine) :
    (vm.state = VirtualMachineStateNotFound →
      reconcileDelete m (.ok vm) =
        ({ m with finalizers := FilterStrings m.finalizers [MachineFinalizer] },
          none)
      ∧ MachineFinalizer ∉ (reconcileDelete m (.ok vm)).1.finalizers)
    ∧ (vm.state ≠ VirtualMachineStateNotFound →
      reconcileDelete m (.ok vm) = (m, none)) := by
  constructor
  · intro h
    have he : reconcileDelete m (.ok vm) =
        ({ m with finalizers := FilterStrings m.finalizers [MachineFinalizer] },
          none) := by
      simp [reconcileDelete, h]
    refine ⟨he, ?_⟩
    rw [he]
    simp [FilterStrings, Contains, List.mem_filter]
  · intro h
    simp [reconcileDelete, h]

/-- Witness for C6: a notfound view strips the finalizer, a pending
view leaves the machine untouched. -/
theorem C6_delete_finalizer_witness :
    reconcileDelete mFin (.ok vmNotFound) =
      ({ mFin with finalizers := ["kept"] }, none) ∧
    MachineFinalizer ∉ (reconcileDelete mFin (.ok vmNotFound)).1.finalizers ∧
    reconcileDelete mFin (.ok vmPending) = (mFin, none) :=
  ⟨((C6_delete_finalizer mFin vmNotFound).1 rfl).1,
   ((C6_delete_finalizer mFin vmNotFound).1 rfl).2,
   (C6_delete_finalizer mFin vmPending).2 (by decide)⟩

/-- Claim C7: a machine with no error reason whose finalizer list
already carries the lifecycle finalizer, with ready infrastructure and
available bootstrap data, facing a ready view with a matching
network-device count but zero observed IP addresses: the normal-path
reconcile returns no error, Status.Ready stays false, and the
finalizer list and provider id are unchanged. -/
theorem C7_wait_for_addresses (m : VSphereMachine) (d : String)
    (vm : VirtualMachine)
    (h1 : m.status.errorReason = none)
    (h3 : Contains m.finalizers MachineFinalizer = true)
    (h6 : vm.state = VirtualMachineStateReady)
    (h7 : m.spec.network.devices.length = vm.network.length)
    (h8 : vm.network.flatMap NetworkStatus.ipAddrs = [])
    (h9 : m.status.ready = false) :
    (reconcileNormal m true (some d) (.ok vm)).2 = none ∧
    (reconcileNormal m true (some d) (.ok vm)).1.status.ready = false ∧
    (reconcileNormal m true (some d) (.ok vm)).1.finalizers = m.finalizers ∧
    (reconcileNormal m true (some d) (.ok vm)).1.spec.providerID
      = m.spec.providerID := by
  have hnet : reconcileNetwork m vm =
      ({ m with status := { m.status with network := vm.network } }, false, none) := by
    have hlen : collectIPAddrs vm.network = [] := collectIPAddrs_eq_nil vm.network h8
    simp [reconcileNetwork, h7, hlen]
  cases hm : m.status.errorMessage with
  | some x => simp [reconcileNormal, h1, hm, h9]
  | none => simp [reconcileNormal, h1, hm, h3, h6, hnet, h9]

/-- Witness for C7: one configured device, a ready view with one
interface and no addresses. -/
theorem C7_wait_for_addresses_witness :
    (reconcileNormal mNet1 true (some "bootstrap") (.ok vmNoIP)).2 = none ∧
    (reconcileNormal mNet1 true (some "bootstrap") (.ok vmNoIP)).1.status.ready
      = false ∧
    (reconcileNormal mNet1 true (some "bootstrap") (.ok vmNoIP)).1.finalizers
      = mNet1.finalizers ∧
    (reconcileNormal mNet1 true (some "bootstrap") (.ok vmNoIP)).1.spec.providerID
      = mNet1.spec.providerID :=
  C7_wait_for_addresses mNet1 "bootstrap" vmNoIP rfl (by decide) rfl rfl rfl rfl

/-- Claim C8: on every exit of Reconcile after the machine context is
built, the resource (with its status and finalizers) is patched back
exactly once; when the reconcile body produced no error a patch
failure becomes the reported error, and an error already produced by
the body is never replaced by the patch outcome. -/
theorem C8_patch_on_exit (m : VSphereMachine) (deleting infraReady : Bool)
    (bootstrapData : Option String) (vmResult : Except Err VirtualMachine)
    (patchResult : VSphereMachine → Option Err) :
    (reconcileAfterContext m deleting infraReady bootstrapData vmResult
        patchResult).patched =
      [(reconcileAfterContext m deleting infraReady bootstrapData vmResult
          patchResult).machine]
    ∧ ((if deleting then reconcileDelete m vmResult
        else reconcileNormal m infraReady bootstrapData vmResult).2 = none →
        (reconcileAfterContext m deleting infraReady bootstrapData vmResult
            patchResult).err =
          patchResult (reconcileAfterContext m deleting infraReady bootstrapData
            vmResult patchResult).machine)
    ∧ (∀ e, (if deleting then reconcileDelete m vmResult
        else reconcileNormal m infraReady bootstrapData vmResult).2 = some e →
        (reconcileAfterContext m deleting infraReady bootstrapData vmResult
            patchResult).err = some e) := by
  refine ⟨rfl, ?_, ?_⟩
  · intro h
    simp [reconcileAfterContext, h]
  · intro e h
    simp [reconcileAfterContext, h]

/-- Witness for C8: a failing patch after an error-free body becomes
the reported error; a body error survives a clean patch. -/
theorem C8_patch_on_exit_witness :
    (reconcileAfterContext mFin false false none (.ok vmPending)
        patchConflict).err = some (.providerCall "patch conflict") ∧
    (reconcileAfterContext mFin true false none (.error .cidrParse)
        patchClean).err = some (.wrapped "failed to destroy VM" .cidrParse) :=
  ⟨((C8_patch_on_exit mFin false false none (.ok vmPending)
      patchConflict).2.1 (by rfl)).trans rfl,
   (C8_patch_on_exit mFin true false none (.error .cidrParse)
      patchClean).2.2 (.wrapped "failed to destroy VM" .cidrParse) (by rfl)⟩

/-- Claim C1 counterexample: at a machine with no provider id and a
ready view carrying a valid BIOS UUID, the provider-id step writes
Spec.ProviderID, so the claim that spec fields are never mutated (and
that the update lands in Status) fails on the code. -/
theorem C1_spec_not_mutated_counterexample :
    (reconcileProviderID mC1 vmC1).1.spec.providerID ≠ mC1.spec.providerID ∧
    (reconcileProviderID mC1 vmC1).1.spec.providerID =
      some "vsphere://4205e009-8f43-8f5f-a068-1d213c26a518" := by
  constructor
  · decide
  · decide

/-- Claim C1 (amended): the provider-id step leaves Status, the
finalizers and the rest of Spec unchanged; when the BIOS UUID converts
to a non-empty provider id it returns no error and ensures
Spec.ProviderID holds that id, updating it exactly when it differs or
is unset. -/
theorem C1_provider_id_step (m : VSphereMachine) (vm : VirtualMachine)
    (h : ConvertUUIDToProviderID vm.biosUUID ≠ "") :
    (reconcileProviderID m vm).2 = none ∧
    (reconcileProviderID m vm).1.status = m.status ∧
    (reconcileProviderID m vm).1.finalizers = m.finalizers ∧
    (reconcileProviderID m vm).1.spec.network = m.spec.network ∧
    (reconcileProviderID m vm).1.spec.providerID =
      some (ConvertUUIDToProviderID vm.biosUUID) := by
  simp only [reconcileProviderID]
  rw [if_neg h]
  cases hp : m.spec.providerID with
  | none => simp [hp]
  | some p =>
    by_cases hpe : p = ConvertUUIDToProviderID vm.biosUUID
    · simp [hp, hpe]
    · simp [hp, hpe]

/-- Witness for C1 (amended) at the machine with no provider id and
the ready view with BIOS UUID `uuidA`. -/
theorem C1_provider_id_step_witness :
    (reconcileProviderID mC1 vmC1).2 = none ∧
    (reconcileProviderID mC1 vmC1).1.status = mC1.status ∧
    (reconcileProviderID mC1 vmC1).1.finalizers = mC1.finalizers ∧
    (reconcileProviderID mC1 vmC1).1.spec.network = mC1.spec.network ∧
    (reconcileProviderID mC1 vmC1).1.spec.providerID =
      some (ConvertUUIDToProviderID vmC1.biosUUID) :=
  C1_provider_id_step mC1 vmC1 (by decide)

/-- Claim C4 counterexample: when waitFn returns an error, the
background unit of reconcileObjectOnFuncCompletion emits no
re-reconciliation signal at all. -/
theorem C4_no_signal_on_error_counterexample :
    backgroundWaitUnit mFin (.error (.providerCall "wait failed")) = [] := rfl

/-- Claim C4 (amended): upon waitFn's return the background unit emits
exactly one re-reconciliation signal for the resource when waitFn
succeeded, and none when it returned an error (which is only
logged). -/
theorem C4_signal_on_success_only (obj : VSphereMachine) :
    (∀ kvs, backgroundWaitUnit obj (.ok kvs) = [{ obj := obj }]) ∧
    (∀ e, backgroundWaitUnit obj (.error e) = []) :=
  ⟨fun _ => rfl, fun _ => rfl⟩
